import Mathlib

/-!
# mongodb-example-app: the three browse handlers of `main.go`

A shallow embedding of `handleIndex`, `handleCollection` and `handleDocument`.

The handlers talk to two things that are not part of the repository: the Go
standard library (`strconv.Atoi`, `url.Values.Get`, `net/http` status codes) and
the MongoDB Go driver (`primitive.ObjectIDFromHex`, `bson.Raw.Lookup`,
`RawValue.ObjectIDOK`, `bsontype.Type.String`, `mongo.Cursor`, and the query
methods of `mongo.Database` / `mongo.Collection`).  Those are described in the
first part of the file, each next to the documented behaviour it follows.  The
store itself is an argument of every handler: a `Database` value says, for each
query the handler can issue, what the driver hands back (a result or an error,
a deadline that elapsed being the error `context.DeadlineExceeded`).

Every handler returns the response it writes together with the list of store
queries it issued, in order.
-/

set_option linter.unusedVariables false

namespace MongoExample

/-! ## Go standard library -/

/-- The status code `http.StatusOK`. -/
def StatusOK : Nat := 200

/-- The status code `http.StatusBadRequest`. -/
def StatusBadRequest : Nat := 400

/-- The status code `http.StatusInternalServerError`. -/
def StatusInternalServerError : Nat := 500

/-- The two failures of `strconv.Atoi` (`strconv.ErrSyntax`, `strconv.ErrRange`). -/
inductive NumError where
  | ErrSyntax
  | ErrRange
  deriving DecidableEq, Repr

/-- The digit loop of `strconv.ParseUint(s, 10, 64)`, with `n` the value read so far.  Each
character must be an ASCII decimal digit, otherwise the result is `ErrSyntax` (base 10 is
explicit, so no underscore and no letter is accepted); before a digit is added, a value at
or above `maxUint64/10 + 1`, or a sum above `maxUint64`, is `ErrRange`.  The characters are
read left to right, so whichever failure comes first decides the error. -/
def parseUintLoop : List Char → Nat → Except NumError Nat
  | [], n => .ok n
  | c :: rest, n =>
    if !c.isDigit then .error .ErrSyntax
    else if n ≥ (2 ^ 64 - 1) / 10 + 1 then .error .ErrRange
    else
      let n1 := n * 10 + (c.toNat - 48)
      if n1 > 2 ^ 64 - 1 then .error .ErrRange
      else parseUintLoop rest n1

/-- The function `strconv.ParseUint(s, 10, 64)`: the empty text is `ErrSyntax`. -/
def ParseUint (cs : List Char) : Except NumError Nat :=
  if cs.isEmpty then .error .ErrSyntax else parseUintLoop cs 0

/-- The text after an optional leading sign, as `strconv.ParseInt` strips it. -/
def stripSign : List Char → List Char
  | '-' :: rest => rest
  | '+' :: rest => rest
  | cs => cs

/-- The function `strconv.ParseInt(s, 10, 0)` on a 64-bit platform: the empty text is
`ErrSyntax`; an optional `+` or `-` is stripped and the rest goes through `ParseUint`, whose
error is returned (after a range error the magnitude is `maxUint64`, which the range test
below rejects as well); a magnitude outside `[-2^63, 2^63 - 1]` is `ErrRange`. -/
def ParseInt (cs : List Char) : Except NumError Int :=
  if cs.isEmpty then .error .ErrSyntax
  else
    let neg := cs.head? == some '-'
    match ParseUint (stripSign cs) with
    | .error e => .error e
    | .ok un =>
      if !neg && un ≥ 2 ^ 63 then .error .ErrRange
      else if neg && un > 2 ^ 63 then .error .ErrRange
      else .ok (if neg then -(un : Int) else (un : Int))

/-- The function `strconv.Atoi` on a 64-bit platform.  Its fast path for texts shorter than 19
bytes reads a sign and digits like `ParseInt` and cannot overflow, so it returns what
`ParseInt(s, 10, 0)` returns; longer texts go to `ParseInt` itself. -/
def Atoi (s : String) : Except NumError Int :=
  ParseInt s.toList

/-- The parsed query string of a request, `req.URL.Query()`: key and value pairs in the
order they appear in the URL. -/
abbrev Values := List (String × String)

/-- The method `url.Values.Get`: the first value of the key, the empty string when the key is absent. -/
def Values.Get (v : Values) (key : String) : String :=
  match v.find? (fun p => p.1 == key) with
  | some p => p.2
  | none => ""

/-- An inbound request, as far as the handlers read it. -/
structure Request where
  /-- The result of `req.URL.Query()`. -/
  Query : Values

/-! ## MongoDB driver: identifiers and raw documents -/

/-- A `primitive.ObjectID`: twelve bytes. -/
abbrev ObjectID := List Nat

/-- Value of one hexadecimal digit, as `encoding/hex` reads it (both cases accepted). -/
def fromHexChar (c : Char) : Option Nat :=
  if '0' ≤ c ∧ c ≤ '9' then some (c.toNat - '0'.toNat)
  else if 'a' ≤ c ∧ c ≤ 'f' then some (c.toNat - 'a'.toNat + 10)
  else if 'A' ≤ c ∧ c ≤ 'F' then some (c.toNat - 'A'.toNat + 10)
  else none

/-- The function `hex.DecodeString`: two digits per byte, high digit first; an odd length or a
character that is no hexadecimal digit is an error. -/
def hexDecode : List Char → Option (List Nat)
  | [] => some []
  | [_] => none
  | hi :: lo :: rest =>
    match fromHexChar hi, fromHexChar lo, hexDecode rest with
    | some a, some b, some bs => some ((a * 16 + b) :: bs)
    | _, _, _ => none

/-- The function `primitive.ObjectIDFromHex`: the text must be 24 bytes long and decode as
hexadecimal; the result is the twelve decoded bytes. -/
def ObjectIDFromHex (s : String) : Option ObjectID :=
  if s.utf8ByteSize ≠ 24 then none
  else hexDecode s.toList

/-- A `bson.RawValue`: an element type byte and its payload.  Only the payloads the handlers
read are kept: the bytes of an ObjectID and the text of a string. -/
inductive RawValue where
  /-- An element of type 0x07 with its payload bytes. -/
  | objectID (data : List Nat)
  /-- An element of type 0x02 with its text. -/
  | string (text : String)
  /-- An element of any other type byte; `other 0` is the zero `RawValue`. -/
  | other (type : Nat)
  deriving DecidableEq, Repr

/-- The element type byte of a value, `RawValue.Type`. -/
def RawValue.Type : RawValue → Nat
  | .objectID _ => 0x07
  | .string _ => 0x02
  | .other t => t

/-- The method `bsontype.Type.String`. -/
def typeString (t : Nat) : String :=
  if t = 0x01 then "double"
  else if t = 0x02 then "string"
  else if t = 0x03 then "embedded document"
  else if t = 0x04 then "array"
  else if t = 0x05 then "binary"
  else if t = 0x06 then "undefined"
  else if t = 0x07 then "objectID"
  else if t = 0x08 then "boolean"
  else if t = 0x09 then "UTC datetime"
  else if t = 0x0A then "null"
  else if t = 0x0B then "regex"
  else if t = 0x0C then "dbPointer"
  else if t = 0x0D then "javascript"
  else if t = 0x0E then "symbol"
  else if t = 0x0F then "code with scope"
  else if t = 0x10 then "32-bit integer"
  else if t = 0x11 then "timestamp"
  else if t = 0x12 then "64-bit integer"
  else if t = 0x13 then "128-bit decimal"
  else if t = 0xFF then "min key"
  else if t = 0x7F then "max key"
  else "invalid"

/-- The method `RawValue.ObjectIDOK`: the value must have type ObjectID and at least twelve
payload bytes; the identifier is the first twelve. -/
def RawValue.ObjectIDOK : RawValue → Option ObjectID
  | .objectID data => if data.length < 12 then none else some (data.take 12)
  | _ => none

/-- The method `RawValue.StringValue`, which panics (`none`) on a value that is no string. -/
def RawValue.StringValue : RawValue → Option String
  | .string text => some text
  | _ => none

/-- A `bson.Raw` document: its elements in order. -/
abbrev RawDoc := List (String × RawValue)

/-- The method `bson.Raw.Lookup` for a single key: the first element of that key, the zero value
when there is none. -/
def RawDoc.Lookup (d : RawDoc) (key : String) : RawValue :=
  match d.find? (fun e => e.1 == key) with
  | some e => e.2
  | none => .other 0

/-- A `bson.D` filter.  The handlers build two: the empty one and `_id` equal to an identifier. -/
abbrev D := List (String × ObjectID)

/-! ## MongoDB driver: errors, cursors and the database handle -/

/-- An error returned by a driver call. -/
inductive StoreErr where
  /-- The error `context.DeadlineExceeded`: the deadline of the request elapsed. -/
  | deadlineExceeded
  /-- The error `mongo.ErrNoDocuments`: `FindOne` matched nothing. -/
  | noDocuments
  /-- Any other failure (network, server, decoding). -/
  | other (msg : String)
  deriving DecidableEq, Repr

/-- What the store sends for a cursor: the documents it delivers, in order, and the error
(if any) that ends the stream once they are consumed. -/
structure Reply where
  docs : List RawDoc
  fault : Option StoreErr
  deriving DecidableEq, Repr

/-- A `mongo.Cursor`. -/
structure Cursor where
  /-- Documents not yet consumed. -/
  pending : List RawDoc
  /-- The error the stream ends with, if any. -/
  fault : Option StoreErr
  /-- The field `Current`. -/
  Current : RawDoc
  /-- The error remembered by the cursor, read by `Err`. -/
  err : Option StoreErr
  deriving DecidableEq, Repr

/-- The cursor a successful query returns: nothing consumed, no error yet. -/
def Reply.cursor (r : Reply) : Cursor :=
  { pending := r.docs, fault := r.fault, Current := [], err := none }

/-- The method `Cursor.Next`: false at once when the cursor has already failed; true with
`Current` set when a document is available; otherwise false, recording the error (if any)
that ended the stream.  An elapsed deadline ends the stream like any other error. -/
def Cursor.Next (c : Cursor) : Bool × Cursor :=
  if c.err.isSome then (false, c)
  else
    match c.pending with
    | d :: rest => (true, { c with pending := rest, Current := d })
    | [] => (false, { c with err := c.fault })

/-- The method `Cursor.Err`. -/
def Cursor.Err (c : Cursor) : Option StoreErr := c.err

/-- The options of a find, `options.FindOptions`, as far as the handlers set them. -/
structure FindOptions where
  Skip : Option Int
  deriving DecidableEq, Repr

/-- The constructor `options.Find()`: nothing set. -/
def options.Find : FindOptions := { Skip := none }

/-- The method `FindOptions.SetSkip`. -/
def FindOptions.SetSkip (o : FindOptions) (i : Int) : FindOptions := { o with Skip := some i }

/-- A `mongo.Database` handle together with what its queries return.  Each field is one
driver method under the context of the request. -/
structure Database where
  /-- The method `db.Name()`. -/
  Name : String
  /-- The method `db.ListCollections(ctx, filter)`. -/
  ListCollections : D → Except StoreErr Reply
  /-- The method `db.Collection(name).CountDocuments(ctx, filter)`. -/
  CountDocuments : String → D → Except StoreErr Int
  /-- The method `db.Collection(name).Find(ctx, filter, opts)`. -/
  Find : String → D → FindOptions → Except StoreErr Reply
  /-- The method `db.Collection(name).FindOne(ctx, filter).Decode(&document)`. -/
  FindOne : String → D → Except StoreErr RawDoc

/-- A store query issued by a handler. -/
inductive Call where
  | ListCollections (filter : D)
  | CountDocuments (collection : String) (filter : D)
  | Find (collection : String) (filter : D) (opts : FindOptions)
  | FindOne (collection : String) (filter : D)
  deriving DecidableEq, Repr

/-- What a handler leaves on the `http.ResponseWriter`. -/
inductive Response (α : Type) where
  /-- The call `http.Error(res, msg, code)`. -/
  | httpError (msg : String) (code : Nat)
  /-- The calls `res.WriteHeader(code)` and `tmpl.Execute(res, data)`. -/
  | rendered (code : Nat) (data : α)
  /-- The handler panicked before writing anything. -/
  | panicked
  deriving DecidableEq, Repr

/-- The status code of a response, when one was written. -/
def Response.status {α : Type} : Response α → Option Nat
  | .httpError _ code => some code
  | .rendered code _ => some code
  | .panicked => none

/-- The outcome of one request: the response and the store queries issued, in order. -/
structure Outcome (α : Type) where
  response : Response α
  calls : List Call
  deriving DecidableEq, Repr

/-! ## The handler `handleCollection` -/

/-- The template data of `handleCollection`. -/
structure CollectionData where
  DatabaseName : String
  CollectionName : String
  DocumentCount : Int
  IDs : List ObjectID
  deriving DecidableEq, Repr

/-- The loop `for cursor.Next(ctx) { ... }` of `handleCollection` (lines 144-152): every
document delivered must carry an ObjectID under `_id`, which is appended to `IDs`; any other
value ends the request with `http.Error` and `return` (the `error` case carries that
response).  The loop ends when `Next` returns false. -/
def collectIDs (cursor : Cursor) (IDs : List ObjectID) :
    Except (Response CollectionData) (List ObjectID) :=
  match h : cursor.Next with
  | (false, _) => .ok IDs
  | (true, cursor1) =>
    let f := cursor1.Current.Lookup "_id"
    match f.ObjectIDOK with
    | none => .error (.httpError ("unsupported ID type " ++ typeString f.Type) StatusBadRequest)
    | some id => collectIDs cursor1 (IDs ++ [id])
termination_by cursor.pending.length
decreasing_by
  unfold Cursor.Next at h
  split at h
  · simp at h
  · split at h
    · simp only [Prod.mk.injEq, true_and] at h
      subst h
      simp_all
    · simp at h

/-- The handler returned by `handleCollection(db)`.  `checked` is the state after the `skip`
block of lines 108-115: `none` when the block answered 400 and returned, otherwise the find
options as they stand. -/
def handleCollection (db : Database) (req : Request) : Outcome CollectionData :=
  let findOptions := options.Find
  let name := req.Query.Get "name"
  if name = "" then
    ⟨.httpError "missing name query parameter" StatusBadRequest, []⟩
  else
    let param := req.Query.Get "skip"
    let checked : Option FindOptions :=
      if param ≠ "" then
        match Atoi param with
        | .error _ => none
        | .ok n => if n < 0 then none else some (findOptions.SetSkip n)
      else some findOptions
    match checked with
    | none => ⟨.httpError "invalid skip param" StatusBadRequest, []⟩
    | some findOptions =>
      match db.CountDocuments name [] with
      | .error _ =>
        ⟨.httpError "failed to count documents" StatusBadRequest, [.CountDocuments name []]⟩
      | .ok count =>
        match db.Find name [] findOptions with
        | .error _ =>
          ⟨.httpError "failed to query documents" StatusBadRequest,
            [.CountDocuments name [], .Find name [] findOptions]⟩
        | .ok reply =>
          match collectIDs reply.cursor [] with
          | .error response =>
            ⟨response, [.CountDocuments name [], .Find name [] findOptions]⟩
          | .ok IDs =>
            ⟨.rendered StatusOK
                { DatabaseName := db.Name, CollectionName := name,
                  DocumentCount := count, IDs := IDs },
              [.CountDocuments name [], .Find name [] findOptions]⟩

/-! ## The handler `handleIndex` -/

/-- The template data of `handleIndex`.  The handler never assigns `DatabaseName`. -/
structure IndexData where
  DatabaseName : String
  CollectionNames : List String
  deriving DecidableEq, Repr

/-- The loop `for cursor.Next(ctx) { ... }` of `handleIndex` (lines 71-80): inside the body the
cursor error is checked and, when set, the request ends with a 500; otherwise the `name` of the
current document is appended.  The loop ends when `Next` returns false. -/
def collectNames (cursor : Cursor) (CollectionNames : List String) :
    Except (Response IndexData) (List String) :=
  match h : cursor.Next with
  | (false, _) => .ok CollectionNames
  | (true, cursor1) =>
    match cursor1.Err with
    | some _ => .error (.httpError "failed to list collections" StatusInternalServerError)
    | none =>
      match (cursor1.Current.Lookup "name").StringValue with
      | none => .error .panicked
      | some name => collectNames cursor1 (CollectionNames ++ [name])
termination_by cursor.pending.length
decreasing_by
  unfold Cursor.Next at h
  split at h
  · simp at h
  · split at h
    · simp only [Prod.mk.injEq, true_and] at h
      subst h
      simp_all
    · simp at h

/-- The handler returned by `handleIndex(db)`. -/
def handleIndex (db : Database) (_req : Request) : Outcome IndexData :=
  match db.ListCollections [] with
  | .error _ =>
    ⟨.httpError "failed to list collections" StatusInternalServerError, [.ListCollections []]⟩
  | .ok reply =>
    match collectNames reply.cursor [] with
    | .error response => ⟨response, [.ListCollections []]⟩
    | .ok CollectionNames =>
      ⟨.rendered StatusOK { DatabaseName := "", CollectionNames := CollectionNames },
        [.ListCollections []]⟩

/-! ## The handler `handleDocument` -/

/-- The template data of `handleDocument`. -/
structure DocumentData where
  DatabaseName : String
  CollectionName : String
  ID : ObjectID
  Document : String
  deriving DecidableEq, Repr

/-- The handler returned by `handleDocument(db)`.  `MarshalIndent` stands for
`json.MarshalIndent(document, "", "\t")`, which is outside this repository: the text of a
decoded document, or an error. -/
def handleDocument (db : Database) (MarshalIndent : RawDoc → Except String String)
    (req : Request) : Outcome DocumentData :=
  let collection := req.Query.Get "collection"
  if collection = "" then
    ⟨.httpError "missing collection query parameter" StatusBadRequest, []⟩
  else
    let idStr := req.Query.Get "id"
    if idStr = "" then
      ⟨.httpError "missing id query parameter" StatusBadRequest, []⟩
    else
      match ObjectIDFromHex idStr with
      | none => ⟨.httpError "invalid object ID" StatusBadRequest, []⟩
      | some id =>
        match db.FindOne collection [("_id", id)] with
        | .error _ =>
          ⟨.httpError "failed to decode document" StatusInternalServerError,
            [.FindOne collection [("_id", id)]]⟩
        | .ok document =>
          match MarshalIndent document with
          | .error _ =>
            ⟨.httpError "failed to encode document" StatusInternalServerError,
              [.FindOne collection [("_id", id)]]⟩
          | .ok result =>
            ⟨.rendered StatusOK
                { DatabaseName := db.Name, CollectionName := collection,
                  ID := id, Document := result },
              [.FindOne collection [("_id", id)]]⟩

/-! ## A store that answers every query -/

/-- The contents of a database: its name, its collection names in enumeration order, and the
documents of each collection in the order the store returns them. -/
structure StoreState where
  Name : String
  names : List String
  documents : String → List RawDoc

/-- Whether a document satisfies a filter: every key of the filter holds that ObjectID. -/
def satisfies (filter : D) (d : RawDoc) : Bool :=
  filter.all (fun kv => d.Lookup kv.1 == .objectID kv.2)

/-- The database handle of a store that is reachable and answers within the deadline: the
count is the number of documents satisfying the filter, a find delivers the documents
satisfying the filter after the first `Skip` of them (none skipped when `Skip` is unset, a
negative `Skip` rejected), `FindOne` gives the first document satisfying the filter or
`ErrNoDocuments`. -/
def StoreState.serve (st : StoreState) : Database where
  Name := st.Name
  ListCollections := fun _ =>
    .ok { docs := st.names.map (fun n => [("name", RawValue.string n)]), fault := none }
  CountDocuments := fun name filter =>
    .ok (((st.documents name).filter (satisfies filter)).length : Int)
  Find := fun name filter opts =>
    match opts.Skip with
    | none => .ok { docs := (st.documents name).filter (satisfies filter), fault := none }
    | some k =>
      if k < 0 then .error (.other "skip value must be non-negative")
      else .ok { docs := ((st.documents name).filter (satisfies filter)).drop k.toNat,
                 fault := none }
  FindOne := fun name filter =>
    match (st.documents name).find? (satisfies filter) with
    | some d => .ok d
    | none => .error .noDocuments

/-! ## Stores and requests used as concrete inputs -/

/-- A database handle on which every query runs into the deadline. -/
def expiredDb : Database where
  Name := "example"
  ListCollections := fun _ => .error .deadlineExceeded
  CountDocuments := fun _ _ => .error .deadlineExceeded
  Find := fun _ _ _ => .error .deadlineExceeded
  FindOne := fun _ _ => .error .deadlineExceeded

/-- Three identifiers. -/
def oidA : ObjectID := [1, 1, 1, 1, 1, 1, 1, 1, 1, 1, 1, 1]

/-- The second identifier. -/
def oidB : ObjectID := [2, 2, 2, 2, 2, 2, 2, 2, 2, 2, 2, 2]

/-- The third identifier. -/
def oidC : ObjectID := [3, 3, 3, 3, 3, 3, 3, 3, 3, 3, 3, 3]

/-- A store whose collection `users` holds three documents identified by ObjectIDs. -/
def usersStore : StoreState where
  Name := "example"
  names := ["users"]
  documents := fun n =>
    if n = "users" then
      [[("_id", .objectID oidA), ("n", .other 0x10)],
       [("_id", .objectID oidB)],
       [("_id", .objectID oidC)]]
    else []

/-- A store whose collection `mixed` holds an ObjectID-identified document followed by one
whose `_id` is a string. -/
def mixedStore : StoreState where
  Name := "example"
  names := ["mixed"]
  documents := fun n =>
    if n = "mixed" then
      [[("_id", .objectID oidA)], [("_id", .string "k1")], [("_id", .objectID oidB)]]
    else []

/-- The request `/collection?name=users`. -/
def reqUsers : Request := ⟨[("name", "users")]⟩

/-- The request `/collection?name=users&skip=...`. -/
def reqUsersSkip (skip : String) : Request := ⟨[("name", "users"), ("skip", skip)]⟩

/-- The request `/collection?skip=...`, without a name. -/
def reqNoName (skip : String) : Request := ⟨[("skip", skip)]⟩

/-- The request `/document?collection=...&id=...`. -/
def reqDocument (collection id : String) : Request :=
  ⟨[("collection", collection), ("id", id)]⟩

/-- A stand-in for `json.MarshalIndent` on concrete inputs: the keys of the document. -/
def keysText (d : RawDoc) : Except String String := .ok (String.intercalate "," (d.map Prod.fst))

/-- A database handle whose collection listing delivers one name and then fails. -/
def brokenListing : Database where
  Name := "example"
  ListCollections := fun _ =>
    .ok { docs := [[("name", .string "users")]], fault := some (.other "connection reset") }
  CountDocuments := fun _ _ => .ok 0
  Find := fun _ _ _ => .ok { docs := [], fault := none }
  FindOne := fun _ _ => .error .noDocuments

/-- The three-document store `usersStore` behind a slow link: every query answers as on
`usersStore.serve`, except that the cursor of a find delivers only the first document of
its result and then ends with the deadline error (the request for the rest of the
result runs into the deadline). -/
def midScanDb : Database where
  Name := usersStore.serve.Name
  ListCollections := usersStore.serve.ListCollections
  CountDocuments := usersStore.serve.CountDocuments
  Find := fun name filter opts =>
    match usersStore.serve.Find name filter opts with
    | .ok reply => .ok { docs := reply.docs.take 1, fault := some .deadlineExceeded }
    | .error e => .error e
  FindOne := usersStore.serve.FindOne

/-- The page expected for `/collection?name=users` on `usersStore`. -/
def usersPage : CollectionData :=
  { DatabaseName := "example", CollectionName := "users", DocumentCount := 3,
    IDs := [oidA, oidB, oidC] }

/-- The page expected for `/collection?name=users&skip=2` on `usersStore`. -/
def usersPageSkip2 : CollectionData :=
  { DatabaseName := "example", CollectionName := "users", DocumentCount := 3, IDs := [oidC] }

/-! ## Notions used to state the claims -/

/-- The identifier a document carries under `_id`, if it is an ObjectID. -/
def idOf (d : RawDoc) : Option ObjectID := (d.Lookup "_id").ObjectIDOK

/-- Whether a character is a hexadecimal digit, in either case. -/
def isHexDigit (c : Char) : Bool :=
  ('0' ≤ c ∧ c ≤ '9') ∨ ('a' ≤ c ∧ c ≤ 'f') ∨ ('A' ≤ c ∧ c ≤ 'F')

/-- The value of a hexadecimal digit: its position among the sixteen digits. -/
def hexDigitValue (c : Char) : Nat :=
  "0123456789abcdef".toList.indexOf c.toLower

/-- A text of exactly 24 characters, all hexadecimal digits. -/
def IsObjectIDHex (s : String) : Prop :=
  s.length = 24 ∧ ∀ c ∈ s.toList, isHexDigit c = true

instance (s : String) : Decidable (IsObjectIDHex s) := by
  unfold IsObjectIDHex
  exact inferInstance

/-- A valid `skip` parameter together with the find options it leads to: absent or empty
(options untouched), or a text that `strconv.Atoi` reads as some n >= 0 (skip set to n). -/
def ValidSkip (param : String) (opts : FindOptions) : Prop :=
  (param = "" ∧ opts = options.Find) ∨
    (∃ n : Int, Atoi param = .ok n ∧ 0 ≤ n ∧ opts = { Skip := some n })

/-- A database handle reached when the context is already past its deadline: every query
returns `context.DeadlineExceeded`. -/
def PastDeadline (db : Database) : Prop :=
  (∀ f, db.ListCollections f = .error .deadlineExceeded) ∧
  (∀ c f, db.CountDocuments c f = .error .deadlineExceeded) ∧
  (∀ c f o, db.Find c f o = .error .deadlineExceeded) ∧
  (∀ c f, db.FindOne c f = .error .deadlineExceeded)

/-! ## Lemmas on the cursor loops -/

theorem collectIDs_nil (fault : Option StoreErr) (cur : RawDoc) (acc : List ObjectID) :
    collectIDs ⟨[], fault, cur, none⟩ acc = .ok acc := by
  rw [collectIDs]
  simp [Cursor.Next]

theorem collectIDs_cons (d : RawDoc) (rest : List RawDoc) (fault : Option StoreErr)
    (cur : RawDoc) (acc : List ObjectID) :
    collectIDs ⟨d :: rest, fault, cur, none⟩ acc =
      match (d.Lookup "_id").ObjectIDOK with
      | none => .error (.httpError ("unsupported ID type " ++ typeString (d.Lookup "_id").Type)
          StatusBadRequest)
      | some id => collectIDs ⟨rest, fault, d, none⟩ (acc ++ [id]) := by
  rw [collectIDs]
  simp [Cursor.Next]

theorem collectIDs_all_ok (docs : List RawDoc) (fault : Option StoreErr) (cur : RawDoc)
    (acc : List ObjectID) (h : ∀ d ∈ docs, (idOf d).isSome = true) :
    collectIDs ⟨docs, fault, cur, none⟩ acc = .ok (acc ++ docs.filterMap idOf) := by
  induction docs generalizing cur acc with
  | nil => simp [collectIDs_nil]
  | cons d rest ih =>
    rw [collectIDs_cons]
    have hd := h d (List.mem_cons_self _ _)
    obtain ⟨id, hid⟩ := Option.isSome_iff_exists.mp hd
    have hid2 : (d.Lookup "_id").ObjectIDOK = some id := hid
    rw [hid2]
    simp only
    rw [ih d (acc ++ [id]) (fun x hx => h x (List.mem_cons_of_mem _ hx))]
    simp [List.filterMap_cons, hid]

theorem collectIDs_first_bad (pre post : List RawDoc) (d : RawDoc) (fault : Option StoreErr)
    (cur : RawDoc) (acc : List ObjectID) (hpre : ∀ x ∈ pre, (idOf x).isSome = true)
    (hd : idOf d = none) :
    collectIDs ⟨pre ++ d :: post, fault, cur, none⟩ acc =
      .error (.httpError ("unsupported ID type " ++ typeString (d.Lookup "_id").Type)
        StatusBadRequest) := by
  induction pre generalizing cur acc with
  | nil =>
    have hd2 : (d.Lookup "_id").ObjectIDOK = none := hd
    simp only [List.nil_append]
    rw [collectIDs_cons, hd2]
  | cons x rest ih =>
    have hx := hpre x (List.mem_cons_self _ _)
    obtain ⟨id, hid⟩ := Option.isSome_iff_exists.mp hx
    have hid2 : (x.Lookup "_id").ObjectIDOK = some id := hid
    simp only [List.cons_append]
    rw [collectIDs_cons, hid2]
    simp only
    exact ih x (acc ++ [id]) (fun y hy => hpre y (List.mem_cons_of_mem _ hy))

theorem exists_first_bad (docs : List RawDoc) (h : ∃ d ∈ docs, idOf d = none) :
    ∃ pre d post, docs = pre ++ d :: post ∧ (∀ x ∈ pre, (idOf x).isSome = true) ∧
      idOf d = none := by
  induction docs with
  | nil => simp at h
  | cons x rest ih =>
    cases hx : idOf x with
    | none => exact ⟨[], x, rest, rfl, by simp, hx⟩
    | some id =>
      obtain ⟨d, hmem, hd⟩ := h
      rcases List.mem_cons.mp hmem with heq | hin
      · subst heq
        rw [hx] at hd
        cases hd
      · obtain ⟨pre, b, post, hsplit, hpre, hb⟩ := ih ⟨d, hin, hd⟩
        refine ⟨x :: pre, b, post, by simp [hsplit], ?_, hb⟩
        intro y hy
        rcases List.mem_cons.mp hy with hy1 | hy2
        · subst hy1
          simp [hx]
        · exact hpre y hy2

theorem all_ok_or_bad (docs : List RawDoc) :
    (∀ d ∈ docs, (idOf d).isSome = true) ∨ (∃ d ∈ docs, idOf d = none) := by
  by_cases h : ∀ d ∈ docs, (idOf d).isSome = true
  · exact Or.inl h
  · right
    push_neg at h
    obtain ⟨d, hd, hne⟩ := h
    refine ⟨d, hd, ?_⟩
    cases hv : idOf d with
    | none => rfl
    | some v => simp [hv] at hne

theorem unsupported_ne_invalid_skip (t : String) :
    "unsupported ID type " ++ t ≠ "invalid skip param" := by
  intro h
  have h2 := congrArg String.data h
  simp [String.data_append] at h2

theorem collectIDs_reply (reply : Reply) :
    ((∀ d ∈ reply.docs, (idOf d).isSome = true) ∧
        collectIDs reply.cursor [] = .ok (reply.docs.filterMap idOf)) ∨
    (∃ pre d post, reply.docs = pre ++ d :: post ∧ (∀ x ∈ pre, (idOf x).isSome = true) ∧
        idOf d = none ∧
        collectIDs reply.cursor [] =
          .error (.httpError ("unsupported ID type " ++ typeString (d.Lookup "_id").Type)
            StatusBadRequest)) := by
  rcases all_ok_or_bad reply.docs with hall | hbad
  · left
    refine ⟨hall, ?_⟩
    have := collectIDs_all_ok reply.docs reply.fault [] [] hall
    simpa [Reply.cursor] using this
  · right
    obtain ⟨pre, d, post, hsplit, hpre, hd⟩ := exists_first_bad reply.docs hbad
    refine ⟨pre, d, post, hsplit, hpre, hd, ?_⟩
    have := collectIDs_first_bad pre post d reply.fault [] [] hpre hd
    simpa [Reply.cursor, hsplit] using this

theorem collectIDs_not_invalid_skip (reply : Reply) :
    collectIDs reply.cursor [] ≠
      .error (.httpError "invalid skip param" StatusBadRequest) := by
  rcases collectIDs_reply reply with ⟨_, h⟩ | ⟨pre, d, post, _, _, _, h⟩
  · rw [h]
    simp
  · rw [h]
    intro h2
    injection h2 with h2
    injection h2 with h3 h4
    exact unsupported_ne_invalid_skip _ h3

/-! ## Lemmas on identifiers in hexadecimal -/

theorem char_eq_ofNat (c : Char) : c = Char.ofNat c.toNat := by
  simp [Char.ofNat_toNat]

theorem char_le_iff (a b : Char) : a ≤ b ↔ a.toNat ≤ b.toNat := by
  rw [Char.le_def]
  exact Iff.rfl

theorem fromHexChar_eq (c : Char) :
    fromHexChar c = if isHexDigit c then some (hexDigitValue c) else none := by
  have hc := char_eq_ofNat c
  by_cases h : 48 ≤ c.toNat ∧ c.toNat ≤ 102
  · obtain ⟨h1, h2⟩ := h
    generalize c.toNat = n at hc h1 h2
    subst hc
    interval_cases n <;> rfl
  · have h0 : ('0' : Char).toNat = 48 := rfl
    have h9 : ('9' : Char).toNat = 57 := rfl
    have ha : ('a' : Char).toNat = 97 := rfl
    have hf : ('f' : Char).toNat = 102 := rfl
    have hA : ('A' : Char).toNat = 65 := rfl
    have hF : ('F' : Char).toNat = 70 := rfl
    have hnot : isHexDigit c = false := by
      simp only [isHexDigit, char_le_iff, h0, h9, ha, hf, hA, hF, decide_eq_false_iff_not]
      omega
    have hnone : fromHexChar c = none := by
      simp only [fromHexChar, char_le_iff, h0, h9, ha, hf, hA, hF]
      rw [if_neg (by omega), if_neg (by omega), if_neg (by omega)]
    rw [hnone, hnot]
    simp

theorem isHexDigit_utf8Size (c : Char) (h : isHexDigit c = true) : c.utf8Size = 1 := by
  have h0 : ('0' : Char).toNat = 48 := rfl
  have h9 : ('9' : Char).toNat = 57 := rfl
  have ha : ('a' : Char).toNat = 97 := rfl
  have hf : ('f' : Char).toNat = 102 := rfl
  have hA : ('A' : Char).toNat = 65 := rfl
  have hF : ('F' : Char).toNat = 70 := rfl
  simp only [isHexDigit, char_le_iff, h0, h9, ha, hf, hA, hF, decide_eq_true_iff] at h
  have hle : c.toNat ≤ 127 := by omega
  unfold Char.utf8Size
  have : c.val ≤ UInt32.ofNatCore 127 (by decide) := by
    show c.val.toNat ≤ 127
    exact hle
  exact if_pos this

theorem utf8ByteSize_go_hex (cs : List Char) (h : ∀ c ∈ cs, isHexDigit c = true) :
    String.utf8ByteSize.go cs = cs.length := by
  induction cs with
  | nil => rfl
  | cons c rest ih =>
    simp only [String.utf8ByteSize.go, List.length_cons]
    rw [ih (fun x hx => h x (List.mem_cons_of_mem _ hx)),
      isHexDigit_utf8Size c (h c (List.mem_cons_self _ _))]

theorem utf8ByteSize_hex (s : String) (h : ∀ c ∈ s.toList, isHexDigit c = true) :
    s.utf8ByteSize = s.length := by
  cases s with
  | mk cs => exact utf8ByteSize_go_hex cs h

theorem pair_induction {P : List Char → Prop} (h0 : P []) (h1 : ∀ c, P [c])
    (h2 : ∀ a b rest, P rest → P (a :: b :: rest)) : ∀ cs, P cs
  | [] => h0
  | [c] => h1 c
  | a :: b :: rest => h2 a b rest (pair_induction h0 h1 h2 rest)

theorem hexDecode_some (cs : List Char) (bs : List Nat) (h : hexDecode cs = some bs) :
    (∀ c ∈ cs, isHexDigit c = true) ∧ cs.length = 2 * bs.length ∧
      ∀ i, i < bs.length →
        bs.getD i 0 =
          hexDigitValue (cs.getD (2 * i) '0') * 16 + hexDigitValue (cs.getD (2 * i + 1) '0') := by
  induction cs using pair_induction generalizing bs with
  | h0 =>
    simp [hexDecode] at h
    subst h
    simp
  | h1 c => simp [hexDecode] at h
  | h2 hi lo rest ih =>
    rw [hexDecode, fromHexChar_eq, fromHexChar_eq] at h
    by_cases hhi : isHexDigit hi = true
    · by_cases hlo : isHexDigit lo = true
      · cases hr : hexDecode rest with
        | none => simp [hhi, hlo, hr] at h
        | some tl =>
          simp [hhi, hlo, hr] at h
          subst h
          obtain ⟨ih1, ih2, ih3⟩ := ih tl hr
          refine ⟨?_, ?_, ?_⟩
          · intro c hcm
            simp only [List.mem_cons] at hcm
            rcases hcm with rfl | rfl | hcm
            · exact hhi
            · exact hlo
            · exact ih1 c hcm
          · simp [ih2]
            omega
          · intro i hi2
            cases i with
            | zero => simp
            | succ j =>
              have hj : j < tl.length := by simpa using hi2
              have e1 : 2 * (j + 1) = (2 * j) + 1 + 1 := by ring
              have e2 : 2 * (j + 1) + 1 = (2 * j + 1) + 1 + 1 := by ring
              rw [e2, e1]
              simp only [List.getD_cons_succ]
              exact ih3 j hj
      · simp [hhi, hlo] at h
    · simp [hhi] at h

theorem hexDecode_isSome (cs : List Char) (h : ∀ c ∈ cs, isHexDigit c = true)
    (heven : cs.length % 2 = 0) : ∃ bs, hexDecode cs = some bs := by
  induction cs using pair_induction with
  | h0 => exact ⟨[], rfl⟩
  | h1 c => simp at heven
  | h2 hi lo rest ih =>
    have hhi := h hi (by simp)
    have hlo := h lo (by simp)
    have hrest : ∀ c ∈ rest, isHexDigit c = true := fun c hc => h c (by simp [hc])
    have hev : rest.length % 2 = 0 := by
      simp only [List.length_cons] at heven
      omega
    obtain ⟨bs, hbs⟩ := ih hrest hev
    refine ⟨(hexDigitValue hi * 16 + hexDigitValue lo) :: bs, ?_⟩
    rw [hexDecode, fromHexChar_eq, fromHexChar_eq, hbs]
    simp [hhi, hlo]

theorem ObjectIDFromHex_none_iff (s : String) :
    ObjectIDFromHex s = none ↔ ¬ IsObjectIDHex s := by
  constructor
  · intro h hs
    obtain ⟨hlen, hall⟩ := hs
    have hsize : s.utf8ByteSize = 24 := by rw [utf8ByteSize_hex s hall, hlen]
    obtain ⟨bs, hbs⟩ := hexDecode_isSome s.toList hall (by
      have : s.toList.length = 24 := hlen
      rw [this])
    have hbs2 : hexDecode s.data = some bs := hbs
    simp [ObjectIDFromHex, hsize, hbs2] at h
  · intro h
    cases hr : ObjectIDFromHex s with
    | none => rfl
    | some id =>
      exfalso
      apply h
      unfold ObjectIDFromHex at hr
      split at hr
      · cases hr
      · rename_i hsz
        have hsz2 : s.utf8ByteSize = 24 := by simpa using hsz
        obtain ⟨hall, _, _⟩ := hexDecode_some s.toList id hr
        refine ⟨?_, hall⟩
        rw [← utf8ByteSize_hex s hall, hsz2]

theorem ObjectIDFromHex_some (s : String) (id : ObjectID) (h : ObjectIDFromHex s = some id) :
    id.length = 12 ∧
      ∀ i, i < 12 →
        id.getD i 0 =
          hexDigitValue (s.toList.getD (2 * i) '0') * 16 +
            hexDigitValue (s.toList.getD (2 * i + 1) '0') := by
  unfold ObjectIDFromHex at h
  split at h
  · cases h
  · rename_i hsz
    have hsz2 : s.utf8ByteSize = 24 := by simpa using hsz
    obtain ⟨hall, hlen, hbytes⟩ := hexDecode_some s.toList id h
    have hl : s.toList.length = 24 := by
      have := utf8ByteSize_hex s hall
      rw [hsz2] at this
      exact this.symm
    have h12 : id.length = 12 := by omega
    exact ⟨h12, fun i hi => hbytes i (by omega)⟩

/-! ## Lemmas on the handlers -/

theorem Atoi_ok_ne_empty (param : String) (n : Int) (h : Atoi param = .ok n) : param ≠ "" := by
  intro he
  subst he
  have : Atoi "" = .error .ErrSyntax := rfl
  rw [this] at h
  cases h

theorem handleCollection_validated (db : Database) (req : Request) (opts : FindOptions)
    (hname : req.Query.Get "name" ≠ "") (hskip : ValidSkip (req.Query.Get "skip") opts) :
    handleCollection db req =
      match db.CountDocuments (req.Query.Get "name") [] with
      | .error _ =>
        ⟨.httpError "failed to count documents" StatusBadRequest,
          [.CountDocuments (req.Query.Get "name") []]⟩
      | .ok count =>
        match db.Find (req.Query.Get "name") [] opts with
        | .error _ =>
          ⟨.httpError "failed to query documents" StatusBadRequest,
            [.CountDocuments (req.Query.Get "name") [],
             .Find (req.Query.Get "name") [] opts]⟩
        | .ok reply =>
          match collectIDs reply.cursor [] with
          | .error response =>
            ⟨response, [.CountDocuments (req.Query.Get "name") [],
              .Find (req.Query.Get "name") [] opts]⟩
          | .ok IDs =>
            ⟨.rendered StatusOK
                { DatabaseName := db.Name, CollectionName := req.Query.Get "name",
                  DocumentCount := count, IDs := IDs },
              [.CountDocuments (req.Query.Get "name") [],
               .Find (req.Query.Get "name") [] opts]⟩ := by
  rcases hskip with ⟨hempty, hopts⟩ | ⟨n, hn, hpos, hopts⟩
  · subst hopts
    simp [handleCollection, hname, hempty]
  · subst hopts
    have hne := Atoi_ok_ne_empty _ _ hn
    have hnot : ¬ n < 0 := not_lt.mpr hpos
    simp [handleCollection, hname, hne, hn, hnot, FindOptions.SetSkip]

theorem collectNames_nil (fault : Option StoreErr) (cur : RawDoc) (acc : List String) :
    collectNames ⟨[], fault, cur, none⟩ acc = .ok acc := by
  rw [collectNames]
  simp [Cursor.Next]

theorem collectNames_cons (d : RawDoc) (rest : List RawDoc) (fault : Option StoreErr)
    (cur : RawDoc) (acc : List String) :
    collectNames ⟨d :: rest, fault, cur, none⟩ acc =
      match (d.Lookup "name").StringValue with
      | none => .error .panicked
      | some name => collectNames ⟨rest, fault, d, none⟩ (acc ++ [name]) := by
  rw [collectNames]
  simp [Cursor.Next, Cursor.Err]

theorem filter_satisfies_nil (docs : List RawDoc) : docs.filter (satisfies []) = docs := by
  simp [satisfies]

theorem map_some_filterMap_idOf (docs : List RawDoc)
    (h : ∀ d ∈ docs, (idOf d).isSome = true) :
    (docs.filterMap idOf).map some = docs.map idOf := by
  induction docs with
  | nil => rfl
  | cons d rest ih =>
    obtain ⟨id, hid⟩ := Option.isSome_iff_exists.mp (h d (List.mem_cons_self _ _))
    simp [List.filterMap_cons, hid, ih (fun x hx => h x (List.mem_cons_of_mem _ hx))]

theorem serve_count (st : StoreState) (name : String) :
    st.serve.CountDocuments name [] = .ok ((st.documents name).length : Int) := by
  simp [StoreState.serve, filter_satisfies_nil]

theorem serve_find_unset (st : StoreState) (name : String) :
    st.serve.Find name [] options.Find = .ok { docs := st.documents name, fault := none } := by
  simp [StoreState.serve, filter_satisfies_nil, options.Find]

theorem serve_find_skip (st : StoreState) (name : String) (k : Nat) :
    st.serve.Find name [] { Skip := some (k : Int) } =
      .ok { docs := (st.documents name).drop k, fault := none } := by
  simp [StoreState.serve, filter_satisfies_nil]

theorem handleCollection_rendered (db : Database) (req : Request) (code : Nat)
    (data : CollectionData)
    (h : (handleCollection db req).response = .rendered code data) :
    code = StatusOK ∧ req.Query.Get "name" ≠ "" ∧ data.DatabaseName = db.Name ∧
      data.CollectionName = req.Query.Get "name" ∧
      db.CountDocuments (req.Query.Get "name") [] = .ok data.DocumentCount ∧
      ∃ opts reply, ValidSkip (req.Query.Get "skip") opts ∧
        db.Find (req.Query.Get "name") [] opts = .ok reply ∧
        data.IDs.map some = reply.docs.map idOf ∧
        (handleCollection db req).calls =
          [.CountDocuments (req.Query.Get "name") [],
           .Find (req.Query.Get "name") [] opts] := by
  by_cases hv : ∃ opts, req.Query.Get "name" ≠ "" ∧ ValidSkip (req.Query.Get "skip") opts
  · obtain ⟨opts, hname, hskip⟩ := hv
    have hval := handleCollection_validated db req opts hname hskip
    rw [hval] at h ⊢
    cases hc : db.CountDocuments (req.Query.Get "name") [] with
    | error e =>
      rw [hc] at h
      cases h
    | ok count =>
      rw [hc] at h
      simp only at h
      cases hf : db.Find (req.Query.Get "name") [] opts with
      | error e =>
        rw [hf] at h
        cases h
      | ok reply =>
        rw [hf] at h
        simp only at h
        rcases collectIDs_reply reply with ⟨hall, hloop⟩ | ⟨pre, d, post, _, _, _, hloop⟩
        · rw [hloop] at h
          simp only at h
          injection h with hcode hdata
          subst hdata
          refine ⟨hcode.symm, hname, rfl, rfl, rfl, opts, reply, hskip, hf, ?_, ?_⟩
          · exact map_some_filterMap_idOf reply.docs hall
          · simp only
            rw [hloop]
        · rw [hloop] at h
          cases h
  · exfalso
    by_cases hname : req.Query.Get "name" = ""
    · simp [handleCollection, hname] at h
    · by_cases hskip : req.Query.Get "skip" = ""
      · exact hv ⟨options.Find, hname, Or.inl ⟨hskip, rfl⟩⟩
      · cases ha : Atoi (req.Query.Get "skip") with
        | error e => simp [handleCollection, hname, hskip, ha] at h
        | ok n =>
          by_cases hneg : n < 0
          · simp [handleCollection, hname, hskip, ha, hneg] at h
          · exact hv ⟨{ Skip := some n }, hname, Or.inr ⟨n, ha, not_lt.mp hneg, rfl⟩⟩

theorem handleCollection_serve_all_ok (st : StoreState) (req : Request) (s : Nat)
    (hname : req.Query.Get "name" ≠ "")
    (hskip : (req.Query.Get "skip" = "" ∧ s = 0) ∨ Atoi (req.Query.Get "skip") = .ok (s : Int))
    (hall : ∀ d ∈ st.documents (req.Query.Get "name"), (idOf d).isSome = true) :
    (handleCollection st.serve req).response =
      .rendered StatusOK
        { DatabaseName := st.Name, CollectionName := req.Query.Get "name",
          DocumentCount := ((st.documents (req.Query.Get "name")).length : Int),
          IDs := ((st.documents (req.Query.Get "name")).drop s).filterMap idOf } := by
  have hdrop : ∀ d ∈ (st.documents (req.Query.Get "name")).drop s, (idOf d).isSome = true :=
    fun d hd => hall d (List.mem_of_mem_drop hd)
  have hloop := collectIDs_all_ok ((st.documents (req.Query.Get "name")).drop s) none [] []
    hdrop
  rcases hskip with ⟨hempty, hs⟩ | hparse
  · subst hs
    rw [handleCollection_validated st.serve req options.Find hname (Or.inl ⟨hempty, rfl⟩),
      serve_count]
    simp only
    rw [serve_find_unset]
    simp only [Reply.cursor]
    simp only [List.drop_zero, List.nil_append] at hloop
    rw [hloop]
    rfl
  · rw [handleCollection_validated st.serve req { Skip := some (s : Int) } hname
      (Or.inr ⟨(s : Int), hparse, Int.ofNat_nonneg s, rfl⟩), serve_count]
    simp only
    rw [serve_find_skip]
    simp only [Reply.cursor]
    simp only [List.nil_append] at hloop
    rw [hloop]
    rfl

theorem usersStore_all_ok : ∀ d ∈ usersStore.documents "users", (idOf d).isSome = true := by
  decide

theorem usersStore_unset :
    (handleCollection usersStore.serve reqUsers).response = .rendered StatusOK usersPage :=
  (handleCollection_serve_all_ok usersStore reqUsers 0 (by decide)
    (Or.inl ⟨by decide, rfl⟩) usersStore_all_ok).trans rfl

theorem usersStore_skip2 :
    (handleCollection usersStore.serve (reqUsersSkip "2")).response =
      .rendered StatusOK usersPageSkip2 :=
  (handleCollection_serve_all_ok usersStore (reqUsersSkip "2") 2 (by decide)
    (Or.inr (by rfl)) usersStore_all_ok).trans rfl

theorem serve_findOne_none (st : StoreState) (name : String) (id : ObjectID)
    (h : ∀ d ∈ st.documents name, d.Lookup "_id" ≠ .objectID id) :
    st.serve.FindOne name [("_id", id)] = .error .noDocuments := by
  have hfind : (st.documents name).find? (satisfies [("_id", id)]) = none := by
    rw [List.find?_eq_none]
    intro d hd
    simp [satisfies, h d hd]
  simp [StoreState.serve, hfind]

theorem ObjectIDFromHex_ne_empty (s : String) (id : ObjectID)
    (h : ObjectIDFromHex s = some id) : s ≠ "" := by
  intro he
  rw [he] at h
  have : ObjectIDFromHex "" = none := rfl
  rw [this] at h
  cases h

theorem handleDocument_on_error (db : Database)
    (MarshalIndent : RawDoc → Except String String) (req : Request) (id : ObjectID)
    (e : StoreErr) (hc : req.Query.Get "collection" ≠ "")
    (hp : ObjectIDFromHex (req.Query.Get "id") = some id)
    (hf : db.FindOne (req.Query.Get "collection") [("_id", id)] = .error e) :
    handleDocument db MarshalIndent req =
      ⟨.httpError "failed to decode document" StatusInternalServerError,
        [.FindOne (req.Query.Get "collection") [("_id", id)]]⟩ := by
  have hid := ObjectIDFromHex_ne_empty _ _ hp
  simp [handleDocument, hc, hid, hp, hf]

/-! ## The claims -/

/-- C1 (amended): for a request to handleCollection with a non-empty name and a non-empty skip,
if strconv.Atoi fails on skip (out-of-range included) or gives a negative integer, the
response is 400 "invalid skip param" and no store query is issued; if skip parses to n >= 0,
validation passes (the response is not "invalid skip param") and CountDocuments is issued:
when the count fails the handler answers 400 "failed to count documents" and the count is
the only store query (no find is issued); when the count succeeds the find follows, issued
with skip offset exactly n. -/
theorem handleCollection_skip_validation (db : Database) (req : Request)
    (hname : req.Query.Get "name" ≠ "") (hskip : req.Query.Get "skip" ≠ "") :
    (((∃ e, Atoi (req.Query.Get "skip") = .error e) ∨
        (∃ n, Atoi (req.Query.Get "skip") = .ok n ∧ n < 0)) →
      handleCollection db req =
        ⟨.httpError "invalid skip param" StatusBadRequest, []⟩) ∧
    (∀ n, Atoi (req.Query.Get "skip") = .ok n → 0 ≤ n →
      (handleCollection db req).response ≠
          .httpError "invalid skip param" StatusBadRequest ∧
      (∀ e, db.CountDocuments (req.Query.Get "name") [] = .error e →
        handleCollection db req =
          ⟨.httpError "failed to count documents" StatusBadRequest,
            [.CountDocuments (req.Query.Get "name") []]⟩) ∧
      (∀ count, db.CountDocuments (req.Query.Get "name") [] = .ok count →
        (handleCollection db req).calls =
          [.CountDocuments (req.Query.Get "name") [],
           .Find (req.Query.Get "name") [] { Skip := some n }])) := by
  refine ⟨?_, ?_⟩
  · rintro (⟨e, he⟩ | ⟨n, hn, hneg⟩)
    · simp [handleCollection, hname, hskip, he]
    · simp [handleCollection, hname, hskip, hn, hneg]
  · intro n hn hpos
    have hnot : ¬ n < 0 := not_lt.mpr hpos
    have hval := handleCollection_validated db req { Skip := some n } hname
      (Or.inr ⟨n, hn, hpos, rfl⟩)
    refine ⟨?_, ?_, ?_⟩
    · rw [hval]
      cases hc : db.CountDocuments (req.Query.Get "name") [] with
      | error e => simp [StatusBadRequest]
      | ok count =>
        cases hf : db.Find (req.Query.Get "name") [] { Skip := some n } with
        | error e => simp [StatusBadRequest]
        | ok reply =>
          have hne := collectIDs_not_invalid_skip reply
          simp only
          cases hl : collectIDs reply.cursor [] with
          | error r =>
            rw [hl] at hne
            simp only
            intro h
            exact hne (by rw [h])
          | ok ids => simp
    · intro e hc
      rw [hval, hc]
    · intro count hc
      rw [hval, hc]
      simp only
      cases hf : db.Find (req.Query.Get "name") [] { Skip := some n } with
      | error e => rfl
      | ok reply =>
        simp only
        cases hl : collectIDs reply.cursor [] with
        | error r => rfl
        | ok ids => rfl

/-- Witness for C1 (amended): on the three-document store, `skip=-1` and an out-of-range skip
are answered 400 "invalid skip param" with no store query, and `skip=2` passes validation
and reaches the find with skip offset 2; on a store whose count runs into the deadline,
`skip=2` is answered 400 "failed to count documents" after the count alone. -/
theorem handleCollection_skip_validation_witness :
    (reqUsersSkip "-1").Query.Get "name" ≠ "" ∧ (reqUsersSkip "-1").Query.Get "skip" ≠ "" ∧
    handleCollection usersStore.serve (reqUsersSkip "-1") =
      ⟨.httpError "invalid skip param" StatusBadRequest, []⟩ ∧
    handleCollection usersStore.serve (reqUsersSkip "9223372036854775808") =
      ⟨.httpError "invalid skip param" StatusBadRequest, []⟩ ∧
    (handleCollection usersStore.serve (reqUsersSkip "2")).calls =
      [.CountDocuments "users" [], .Find "users" [] { Skip := some 2 }] ∧
    handleCollection expiredDb (reqUsersSkip "2") =
      ⟨.httpError "failed to count documents" StatusBadRequest,
        [.CountDocuments "users" []]⟩ := by
  refine ⟨by decide, by decide, ?_, ?_, ?_, ?_⟩
  · exact (handleCollection_skip_validation usersStore.serve (reqUsersSkip "-1")
      (by decide) (by decide)).1 (Or.inr ⟨-1, by rfl, by decide⟩)
  · exact (handleCollection_skip_validation usersStore.serve
      (reqUsersSkip "9223372036854775808") (by decide) (by decide)).1
      (Or.inl ⟨.ErrRange, by rfl⟩)
  · exact ((handleCollection_skip_validation usersStore.serve (reqUsersSkip "2")
      (by decide) (by decide)).2 2 (by rfl) (by decide)).2.2 3 (by rfl)
  · exact ((handleCollection_skip_validation expiredDb (reqUsersSkip "2")
      (by decide) (by decide)).2 2 (by rfl) (by decide)).2.1 .deadlineExceeded rfl

/-- C1 as stated fails: with name `users` and `skip=5` (which parses to 5 >= 0) on a store
whose count runs into the deadline, validation passes but the handler answers 400 "failed
to count documents" after the count alone; no find is issued. -/
theorem handleCollection_valid_skip_without_find :
    (reqUsersSkip "5").Query.Get "name" ≠ "" ∧
    Atoi ((reqUsersSkip "5").Query.Get "skip") = .ok 5 ∧
    handleCollection expiredDb (reqUsersSkip "5") =
      ⟨.httpError "failed to count documents" StatusBadRequest,
        [.CountDocuments "users" []]⟩ :=
  ⟨by decide, by rfl, by decide⟩

/-- C2: a request to handleCollection whose `name` parameter is absent or empty is answered
400 "missing name query parameter", whatever the skip parameter is, and no store query
(CountDocuments, Find) is issued. -/
theorem handleCollection_missing_name (db : Database) (req : Request)
    (hname : req.Query.Get "name" = "") :
    handleCollection db req =
      ⟨.httpError "missing name query parameter" StatusBadRequest, []⟩ := by
  simp [handleCollection, hname]

/-- Witness for C2: `/collection?skip=2` and `/collection?skip=abc`, both without a name. -/
theorem handleCollection_missing_name_witness :
    (reqNoName "2").Query.Get "name" = "" ∧
    handleCollection usersStore.serve (reqNoName "2") =
      ⟨.httpError "missing name query parameter" StatusBadRequest, []⟩ ∧
    handleCollection usersStore.serve (reqNoName "abc") =
      ⟨.httpError "missing name query parameter" StatusBadRequest, []⟩ :=
  ⟨by decide,
   handleCollection_missing_name usersStore.serve (reqNoName "2") (by decide),
   handleCollection_missing_name usersStore.serve (reqNoName "abc") (by decide)⟩

/-- C3: handleDocument answers 400 "missing collection query parameter" when `collection` is
empty; otherwise 400 "missing id query parameter" when `id` is empty; otherwise 400 "invalid
object ID" when `id` is not exactly 24 hexadecimal characters; in these three cases no store
query is issued.  When `collection` is non-empty and `id` is exactly 24 hexadecimal
characters, the only store query is FindOne on that collection with filter `_id` equal to
the twelve bytes the text encodes (byte i is digit 2i times 16 plus digit 2i+1). -/
theorem handleDocument_validation (db : Database)
    (MarshalIndent : RawDoc → Except String String) (req : Request) :
    (req.Query.Get "collection" = "" →
      handleDocument db MarshalIndent req =
        ⟨.httpError "missing collection query parameter" StatusBadRequest, []⟩) ∧
    (req.Query.Get "collection" ≠ "" → req.Query.Get "id" = "" →
      handleDocument db MarshalIndent req =
        ⟨.httpError "missing id query parameter" StatusBadRequest, []⟩) ∧
    (req.Query.Get "collection" ≠ "" → req.Query.Get "id" ≠ "" →
      ¬ IsObjectIDHex (req.Query.Get "id") →
      handleDocument db MarshalIndent req =
        ⟨.httpError "invalid object ID" StatusBadRequest, []⟩) ∧
    (req.Query.Get "collection" ≠ "" → IsObjectIDHex (req.Query.Get "id") →
      ∃ id : ObjectID, id.length = 12 ∧
        (∀ i, i < 12 →
          id.getD i 0 =
            hexDigitValue ((req.Query.Get "id").toList.getD (2 * i) '0') * 16 +
              hexDigitValue ((req.Query.Get "id").toList.getD (2 * i + 1) '0')) ∧
        (handleDocument db MarshalIndent req).calls =
          [.FindOne (req.Query.Get "collection") [("_id", id)]]) := by
  refine ⟨?_, ?_, ?_, ?_⟩
  · intro hc
    simp [handleDocument, hc]
  · intro hc hid
    simp [handleDocument, hc, hid]
  · intro hc hid hbad
    have hnone := (ObjectIDFromHex_none_iff _).mpr hbad
    simp [handleDocument, hc, hid, hnone]
  · intro hc hhex
    have hid : req.Query.Get "id" ≠ "" := by
      intro h
      have hlen := hhex.1
      rw [h] at hlen
      simp at hlen
    cases hp : ObjectIDFromHex (req.Query.Get "id") with
    | none => exact absurd hhex ((ObjectIDFromHex_none_iff _).mp hp)
    | some id =>
      obtain ⟨h12, hbytes⟩ := ObjectIDFromHex_some _ id hp
      refine ⟨id, h12, hbytes, ?_⟩
      cases hf : db.FindOne (req.Query.Get "collection") [("_id", id)] with
      | error e => simp [handleDocument, hc, hid, hp, hf]
      | ok doc =>
        cases hm : MarshalIndent doc with
        | error e => simp [handleDocument, hc, hid, hp, hf, hm]
        | ok text => simp [handleDocument, hc, hid, hp, hf, hm]

/-- Witness for C3: an empty collection, an empty id, an id of 23 digits, an id with a
character that is no hexadecimal digit, and the well-formed id of 24 times `f`. -/
theorem handleDocument_validation_witness :
    handleDocument usersStore.serve keysText (reqDocument "" "ffffffffffffffffffffffff") =
      ⟨.httpError "missing collection query parameter" StatusBadRequest, []⟩ ∧
    handleDocument usersStore.serve keysText (reqDocument "users" "") =
      ⟨.httpError "missing id query parameter" StatusBadRequest, []⟩ ∧
    handleDocument usersStore.serve keysText (reqDocument "users" "fffffffffffffffffffffff") =
      ⟨.httpError "invalid object ID" StatusBadRequest, []⟩ ∧
    handleDocument usersStore.serve keysText (reqDocument "users" "fffffffffffffffffffffffg") =
      ⟨.httpError "invalid object ID" StatusBadRequest, []⟩ ∧
    IsObjectIDHex ((reqDocument "users" "ffffffffffffffffffffffff").Query.Get "id") ∧
    (∃ id : ObjectID, id.length = 12 ∧
      (handleDocument usersStore.serve keysText
          (reqDocument "users" "ffffffffffffffffffffffff")).calls =
        [.FindOne "users" [("_id", id)]]) := by
  have hhex : IsObjectIDHex ((reqDocument "users" "ffffffffffffffffffffffff").Query.Get "id") :=
    ⟨by decide, by decide⟩
  refine ⟨?_, ?_, ?_, ?_, hhex, ?_⟩
  · exact (handleDocument_validation usersStore.serve keysText
      (reqDocument "" "ffffffffffffffffffffffff")).1 (by decide)
  · exact (handleDocument_validation usersStore.serve keysText
      (reqDocument "users" "")).2.1 (by decide) (by decide)
  · exact (handleDocument_validation usersStore.serve keysText
      (reqDocument "users" "fffffffffffffffffffffff")).2.2.1 (by decide) (by decide)
      (fun h => absurd h.1 (by decide))
  · exact (handleDocument_validation usersStore.serve keysText
      (reqDocument "users" "fffffffffffffffffffffffg")).2.2.1 (by decide) (by decide)
      (fun h => absurd (h.2 'g' (by decide)) (by decide))
  · obtain ⟨id, h12, _, hcalls⟩ := (handleDocument_validation usersStore.serve keysText
      (reqDocument "users" "ffffffffffffffffffffffff")).2.2.2 (by decide) hhex
    exact ⟨id, h12, hcalls⟩

/-- C4, the code at the failing input: the collection listing delivers the name `users` and
then fails with a store error.  The second call of `Next` returns false and leaves that error
in the cursor, where `Err` would report it, yet handleIndex answers 200 and renders the
names read so far. -/
theorem handleIndex_midscan_error_renders :
    brokenListing.ListCollections [] =
      .ok { docs := [[("name", .string "users")]], fault := some (.other "connection reset") } ∧
    (({ docs := [[("name", .string "users")]],
        fault := some (.other "connection reset") } : Reply).cursor.Next.2.Next).1 = false ∧
    (({ docs := [[("name", .string "users")]],
        fault := some (.other "connection reset") } : Reply).cursor.Next.2.Next).2.Err =
      some (.other "connection reset") ∧
    handleIndex brokenListing ⟨[]⟩ =
      ⟨.rendered StatusOK { DatabaseName := "", CollectionNames := ["users"] },
        [.ListCollections []]⟩ := by
  refine ⟨rfl, by decide, by decide, ?_⟩
  simp [handleIndex, brokenListing, Reply.cursor, collectNames_cons, collectNames_nil,
    RawDoc.Lookup, RawValue.StringValue]

/-- C5 as stated fails: on a store whose count runs into the deadline, handleCollection
answers `/collection?name=users` with status 400 (a client error), not 500. -/
theorem handleCollection_deadline_is_client_error :
    expiredDb.CountDocuments "users" [] = .error .deadlineExceeded ∧
    handleCollection expiredDb reqUsers =
      ⟨.httpError "failed to count documents" StatusBadRequest,
        [.CountDocuments "users" []]⟩ ∧
    (handleCollection expiredDb reqUsers).response.status ≠ some StatusInternalServerError :=
  ⟨rfl, by decide, by decide⟩

/-- C5 (amended): the claim is about the calls ListCollections, CountDocuments, Find and FindOne
themselves returning the deadline error; it says nothing about a deadline that elapses
later, while a cursor already returned is iterated.  A deadline hit by ListCollections makes
handleIndex answer 500 "failed to list collections"; one hit by FindOne makes
handleDocument answer 500 "failed to decode document"; one hit by CountDocuments makes
handleCollection answer 400 "failed to count documents" and one hit by Find 400 "failed to
query documents"; no page is rendered in any of these cases.  When the context is already
past its deadline at invocation (each of the four calls returns the deadline error),
handleIndex answers 500; handleCollection answers 400 "missing name query parameter" or 400
"invalid skip param" without a store query when validation fails and 400 "failed to count
documents" when it passes; handleDocument answers 400 without a store query exactly when
validation fails (empty collection, empty id, id that is not 24 hexadecimal characters)
and 500 "failed to decode document" when it passes. -/
theorem handlers_on_elapsed_deadline (db : Database)
    (MarshalIndent : RawDoc → Except String String) (req : Request) :
    (db.ListCollections [] = .error .deadlineExceeded →
      handleIndex db req =
        ⟨.httpError "failed to list collections" StatusInternalServerError,
          [.ListCollections []]⟩) ∧
    (∀ id, req.Query.Get "collection" ≠ "" → ObjectIDFromHex (req.Query.Get "id") = some id →
      db.FindOne (req.Query.Get "collection") [("_id", id)] = .error .deadlineExceeded →
      handleDocument db MarshalIndent req =
        ⟨.httpError "failed to decode document" StatusInternalServerError,
          [.FindOne (req.Query.Get "collection") [("_id", id)]]⟩) ∧
    (∀ opts, req.Query.Get "name" ≠ "" → ValidSkip (req.Query.Get "skip") opts →
      db.CountDocuments (req.Query.Get "name") [] = .error .deadlineExceeded →
      handleCollection db req =
        ⟨.httpError "failed to count documents" StatusBadRequest,
          [.CountDocuments (req.Query.Get "name") []]⟩) ∧
    (∀ opts count, req.Query.Get "name" ≠ "" → ValidSkip (req.Query.Get "skip") opts →
      db.CountDocuments (req.Query.Get "name") [] = .ok count →
      db.Find (req.Query.Get "name") [] opts = .error .deadlineExceeded →
      handleCollection db req =
        ⟨.httpError "failed to query documents" StatusBadRequest,
          [.CountDocuments (req.Query.Get "name") [],
           .Find (req.Query.Get "name") [] opts]⟩) ∧
    (PastDeadline db →
      handleIndex db req =
        ⟨.httpError "failed to list collections" StatusInternalServerError,
          [.ListCollections []]⟩ ∧
      (req.Query.Get "name" = "" →
        handleCollection db req =
          ⟨.httpError "missing name query parameter" StatusBadRequest, []⟩) ∧
      (req.Query.Get "name" ≠ "" → (¬ ∃ opts, ValidSkip (req.Query.Get "skip") opts) →
        handleCollection db req =
          ⟨.httpError "invalid skip param" StatusBadRequest, []⟩) ∧
      (req.Query.Get "name" ≠ "" → (∃ opts, ValidSkip (req.Query.Get "skip") opts) →
        handleCollection db req =
          ⟨.httpError "failed to count documents" StatusBadRequest,
            [.CountDocuments (req.Query.Get "name") []]⟩) ∧
      (req.Query.Get "collection" = "" →
        handleDocument db MarshalIndent req =
          ⟨.httpError "missing collection query parameter" StatusBadRequest, []⟩) ∧
      (req.Query.Get "collection" ≠ "" → req.Query.Get "id" = "" →
        handleDocument db MarshalIndent req =
          ⟨.httpError "missing id query parameter" StatusBadRequest, []⟩) ∧
      (req.Query.Get "collection" ≠ "" → req.Query.Get "id" ≠ "" →
        ¬ IsObjectIDHex (req.Query.Get "id") →
        handleDocument db MarshalIndent req =
          ⟨.httpError "invalid object ID" StatusBadRequest, []⟩) ∧
      (req.Query.Get "collection" ≠ "" → IsObjectIDHex (req.Query.Get "id") →
        ∃ id, ObjectIDFromHex (req.Query.Get "id") = some id ∧
          handleDocument db MarshalIndent req =
            ⟨.httpError "failed to decode document" StatusInternalServerError,
              [.FindOne (req.Query.Get "collection") [("_id", id)]]⟩)) := by
  refine ⟨?_, ?_, ?_, ?_, ?_⟩
  · intro h
    simp [handleIndex, h]
  · intro id hc hp hf
    exact handleDocument_on_error db MarshalIndent req id _ hc hp hf
  · intro opts hname hskip hcount
    rw [handleCollection_validated db req opts hname hskip, hcount]
  · intro opts count hname hskip hcount hfind
    rw [handleCollection_validated db req opts hname hskip, hcount]
    simp only
    rw [hfind]
  · rintro ⟨hl, hcnt, _, hone⟩
    refine ⟨?_, ?_, ?_, ?_, ?_, ?_, ?_, ?_⟩
    · simp [handleIndex, hl]
    · intro hname
      simp [handleCollection, hname]
    · intro hname hbad
      have hskip : req.Query.Get "skip" ≠ "" :=
        fun h => hbad ⟨options.Find, Or.inl ⟨h, rfl⟩⟩
      cases ha : Atoi (req.Query.Get "skip") with
      | error e => simp [handleCollection, hname, hskip, ha]
      | ok n =>
        by_cases hneg : n < 0
        · simp [handleCollection, hname, hskip, ha, hneg]
        · exact absurd ⟨{ Skip := some n }, Or.inr ⟨n, ha, not_lt.mp hneg, rfl⟩⟩ hbad
    · rintro hname ⟨opts, hskip⟩
      rw [handleCollection_validated db req opts hname hskip, hcnt]
    · intro hc
      simp [handleDocument, hc]
    · intro hc hid
      simp [handleDocument, hc, hid]
    · intro hc hid hbad
      have hnone := (ObjectIDFromHex_none_iff _).mpr hbad
      simp [handleDocument, hc, hid, hnone]
    · intro hc hhex
      cases hp : ObjectIDFromHex (req.Query.Get "id") with
      | none => exact absurd hhex ((ObjectIDFromHex_none_iff _).mp hp)
      | some id =>
        exact ⟨id, rfl, handleDocument_on_error db MarshalIndent req id _ hc hp (hone _ _)⟩

/-- Witness for C5 (amended): the three handlers on a store past its deadline, with requests
that pass validation and requests that fail it. -/
theorem handlers_on_elapsed_deadline_witness :
    PastDeadline expiredDb ∧
    handleIndex expiredDb reqUsers =
      ⟨.httpError "failed to list collections" StatusInternalServerError,
        [.ListCollections []]⟩ ∧
    handleDocument expiredDb keysText (reqDocument "users" "ffffffffffffffffffffffff") =
      ⟨.httpError "failed to decode document" StatusInternalServerError,
        [.FindOne "users"
          [("_id", [255, 255, 255, 255, 255, 255, 255, 255, 255, 255, 255, 255])]]⟩ ∧
    handleCollection expiredDb (reqUsersSkip "2") =
      ⟨.httpError "failed to count documents" StatusBadRequest,
        [.CountDocuments "users" []]⟩ ∧
    handleCollection expiredDb (reqNoName "2") =
      ⟨.httpError "missing name query parameter" StatusBadRequest, []⟩ ∧
    handleDocument expiredDb keysText (reqDocument "" "ffffffffffffffffffffffff") =
      ⟨.httpError "missing collection query parameter" StatusBadRequest, []⟩ := by
  have hpast : PastDeadline expiredDb :=
    ⟨fun _ => rfl, fun _ _ => rfl, fun _ _ _ => rfl, fun _ _ => rfl⟩
  refine ⟨hpast, ?_, ?_, ?_, ?_, ?_⟩
  · exact (handlers_on_elapsed_deadline expiredDb keysText reqUsers).1 rfl
  · exact (handlers_on_elapsed_deadline expiredDb keysText
      (reqDocument "users" "ffffffffffffffffffffffff")).2.1 _ (by decide) (by rfl) rfl
  · exact (handlers_on_elapsed_deadline expiredDb keysText (reqUsersSkip "2")).2.2.1
      { Skip := some 2 } (by decide) (Or.inr ⟨2, by rfl, by decide, rfl⟩) rfl
  · exact ((handlers_on_elapsed_deadline expiredDb keysText (reqNoName "2")).2.2.2.2
      hpast).2.1 (by decide)
  · exact ((handlers_on_elapsed_deadline expiredDb keysText
      (reqDocument "" "ffffffffffffffffffffffff")).2.2.2.2 hpast).2.2.2.2.1 (by decide)

/-- C6: when handleCollection has a non-empty name and a valid skip, the count succeeds and
the find returns records of which at least one carries an `_id` that is no ObjectID, the
handler answers 400 "unsupported ID type <type>", where <type> is the BSON type of the
first such `_id` in the order delivered; the response is that error alone, so no identifier
list is rendered, not even the ObjectIDs read before the offending record. -/
theorem handleCollection_unsupported_id (db : Database) (req : Request) (opts : FindOptions)
    (count : Int) (reply : Reply)
    (hname : req.Query.Get "name" ≠ "") (hskip : ValidSkip (req.Query.Get "skip") opts)
    (hcount : db.CountDocuments (req.Query.Get "name") [] = .ok count)
    (hfind : db.Find (req.Query.Get "name") [] opts = .ok reply)
    (hbad : ∃ d ∈ reply.docs, (d.Lookup "_id").ObjectIDOK = none) :
    ∃ pre d post, reply.docs = pre ++ d :: post ∧
      (∀ x ∈ pre, ((x.Lookup "_id").ObjectIDOK).isSome = true) ∧
      (d.Lookup "_id").ObjectIDOK = none ∧
      (handleCollection db req).response =
        .httpError ("unsupported ID type " ++ typeString (d.Lookup "_id").Type)
          StatusBadRequest := by
  rcases collectIDs_reply reply with ⟨hall, _⟩ | ⟨pre, d, post, hsplit, hpre, hd, hloop⟩
  · obtain ⟨d, hmem, hd⟩ := hbad
    have := hall d hmem
    have hd2 : idOf d = none := hd
    rw [hd2] at this
    cases this
  · refine ⟨pre, d, post, hsplit, hpre, hd, ?_⟩
    rw [handleCollection_validated db req opts hname hskip, hcount]
    simp only
    rw [hfind]
    simp only
    rw [hloop]

/-- Witness for C6: the collection `mixed` holds an ObjectID-identified document, then one
whose `_id` is a string; `/collection?name=mixed` is answered 400 "unsupported ID type
string". -/
theorem handleCollection_unsupported_id_witness :
    (handleCollection mixedStore.serve ⟨[("name", "mixed")]⟩).response =
      .httpError "unsupported ID type string" StatusBadRequest := by
  obtain ⟨pre, d, post, hsplit, hpre, hd, hresp⟩ :=
    handleCollection_unsupported_id mixedStore.serve ⟨[("name", "mixed")]⟩ options.Find 3
      { docs := [[("_id", .objectID oidA)], [("_id", .string "k1")], [("_id", .objectID oidB)]],
        fault := none }
      (by decide) (Or.inl ⟨by decide, rfl⟩) (by rfl) (by rfl)
      ⟨[("_id", .string "k1")], by simp, by rfl⟩
  rw [hresp]
  have hdoc : d = [("_id", .string "k1")] := by
    match pre, hsplit, hpre with
    | [], hs, _ =>
      simp only [List.nil_append, List.cons.injEq] at hs
      rw [← hs.1] at hd
      exact absurd hd (by decide)
    | [x], hs, _ =>
      simp only [List.cons_append, List.nil_append, List.cons.injEq] at hs
      exact hs.2.1.symm
    | x :: y :: z :: rest, hs, hp =>
      simp only [List.cons_append, List.cons.injEq] at hs
      have hy : y = [("_id", .string "k1")] := hs.2.1.symm
      have := hp y (by simp)
      rw [hy] at this
      exact absurd this (by decide)
    | [x, y], hs, hp =>
      simp only [List.cons_append, List.nil_append, List.cons.injEq] at hs
      have hy : y = [("_id", .string "k1")] := hs.2.1.symm
      have := hp y (by simp)
      rw [hy] at this
      exact absurd this (by decide)
  rw [hdoc]
  rfl

/-- The listing on a store whose cursors end without error: for a collection holding only
ObjectID-identified documents and a valid skip s (absent or empty meaning 0),
handleCollection on a store that answers gives 200 and its IDs are the identifiers of the
documents of the collection after the first s, one per document and in the store's order; a
skip at or beyond the size of the collection gives the empty list, still with status 200.
On any store, the IDs of a rendered page are, one per document and in order, the identifiers
of the documents that the cursor of the find delivered before it ended. -/
theorem handleCollection_ids_window (req : Request) :
    (∀ (st : StoreState) (s : Nat), req.Query.Get "name" ≠ "" →
      ((req.Query.Get "skip" = "" ∧ s = 0) ∨ Atoi (req.Query.Get "skip") = .ok (s : Int)) →
      (∀ d ∈ st.documents (req.Query.Get "name"), (idOf d).isSome = true) →
      ∃ ids : List ObjectID,
        (handleCollection st.serve req).response =
          .rendered StatusOK
            { DatabaseName := st.Name, CollectionName := req.Query.Get "name",
              DocumentCount := ((st.documents (req.Query.Get "name")).length : Int),
              IDs := ids } ∧
        ids.map some = ((st.documents (req.Query.Get "name")).drop s).map idOf ∧
        ((st.documents (req.Query.Get "name")).length ≤ s → ids = [])) ∧
    (∀ (db : Database) (code : Nat) (data : CollectionData),
      (handleCollection db req).response = .rendered code data →
      ∃ opts reply, ValidSkip (req.Query.Get "skip") opts ∧
        (handleCollection db req).calls =
          [.CountDocuments (req.Query.Get "name") [],
           .Find (req.Query.Get "name") [] opts] ∧
        db.Find (req.Query.Get "name") [] opts = .ok reply ∧
        data.IDs.map some = reply.docs.map idOf) := by
  refine ⟨?_, ?_⟩
  · intro st s hname hskip hall
    have hdrop : ∀ d ∈ (st.documents (req.Query.Get "name")).drop s, (idOf d).isSome = true :=
      fun d hd => hall d (List.mem_of_mem_drop hd)
    refine ⟨((st.documents (req.Query.Get "name")).drop s).filterMap idOf,
      handleCollection_serve_all_ok st req s hname hskip hall,
      map_some_filterMap_idOf _ hdrop, ?_⟩
    intro hle
    rw [List.drop_of_length_le hle]
    rfl
  · intro db code data h
    obtain ⟨_, _, _, _, _, opts, reply, hv, hf, hids, hcalls⟩ :=
      handleCollection_rendered db req code data h
    exact ⟨opts, reply, hv, hcalls, hf, hids⟩

/-- The three-document scenario on a store that answers: the collection `users` holds three
ObjectID-identified documents; without skip all three identifiers are listed, with `skip=2`
exactly the remaining one, and with `skip=3` none, each time with status 200 and
DocumentCount 3. -/
theorem handleCollection_ids_window_witness :
    (handleCollection usersStore.serve reqUsers).response =
      .rendered StatusOK
        { DatabaseName := "example", CollectionName := "users", DocumentCount := 3,
          IDs := [oidA, oidB, oidC] } ∧
    (handleCollection usersStore.serve (reqUsersSkip "2")).response =
      .rendered StatusOK
        { DatabaseName := "example", CollectionName := "users", DocumentCount := 3,
          IDs := [oidC] } ∧
    (handleCollection usersStore.serve (reqUsersSkip "3")).response =
      .rendered StatusOK
        { DatabaseName := "example", CollectionName := "users", DocumentCount := 3,
          IDs := [] } := by
  have hall : ∀ d ∈ usersStore.documents "users", (idOf d).isSome = true := by decide
  refine ⟨?_, ?_, ?_⟩
  · obtain ⟨ids, hresp, hids, _⟩ := (handleCollection_ids_window reqUsers).1 usersStore 0
      (by decide) (Or.inl ⟨by decide, rfl⟩) hall
    have hl : ids = [oidA, oidB, oidC] := by
      have h2 : List.map some ids = List.map some [oidA, oidB, oidC] := hids
      exact List.map_injective_iff.mpr (Option.some_injective _) h2
    rw [hresp, hl]
    rfl
  · obtain ⟨ids, hresp, hids, _⟩ := (handleCollection_ids_window (reqUsersSkip "2")).1 usersStore 2
      (by decide) (Or.inr (by rfl)) hall
    have hl : ids = [oidC] := by
      have h2 : List.map some ids = List.map some [oidC] := hids
      exact List.map_injective_iff.mpr (Option.some_injective _) h2
    rw [hresp, hl]
    rfl
  · obtain ⟨ids, hresp, _, hnil⟩ := (handleCollection_ids_window (reqUsersSkip "3")).1 usersStore 3
      (by decide) (Or.inr (by rfl)) hall
    rw [hresp, hnil (by decide)]
    rfl

/-- C7, the code at the failing input: the collection `users` holds three documents, all
identified by ObjectIDs, and the request is `/collection?name=users` (no skip).  The count
returns 3 and the find succeeds; its cursor delivers the first document and then ends with
the deadline error, which `Err` would report after `Next` has returned false.
handleCollection never reads it: the call succeeds with status 200 and DocumentCount 3 and
lists one identifier, so two of the three documents after the skip offset are dropped. -/
theorem handleCollection_midscan_error_renders :
    (∀ d ∈ usersStore.documents "users", (idOf d).isSome = true) ∧
    (usersStore.documents "users").map idOf = [some oidA, some oidB, some oidC] ∧
    midScanDb.CountDocuments "users" [] = .ok 3 ∧
    midScanDb.Find "users" [] options.Find =
      .ok { docs := [[("_id", .objectID oidA), ("n", .other 0x10)]],
            fault := some .deadlineExceeded } ∧
    (({ docs := [[("_id", .objectID oidA), ("n", .other 0x10)]],
        fault := some .deadlineExceeded } : Reply).cursor.Next.2.Next).1 = false ∧
    (({ docs := [[("_id", .objectID oidA), ("n", .other 0x10)]],
        fault := some .deadlineExceeded } : Reply).cursor.Next.2.Next).2.Err =
      some .deadlineExceeded ∧
    handleCollection midScanDb reqUsers =
      ⟨.rendered StatusOK
          { DatabaseName := "example", CollectionName := "users", DocumentCount := 3,
            IDs := [oidA] },
        [.CountDocuments "users" [], .Find "users" [] { Skip := none }]⟩ := by
  have hfind : midScanDb.Find "users" [] options.Find =
      .ok { docs := [[("_id", .objectID oidA), ("n", .other 0x10)]],
            fault := some .deadlineExceeded } := by rfl
  refine ⟨usersStore_all_ok, by decide, by rfl, hfind, by decide, by decide, ?_⟩
  have hval := handleCollection_validated midScanDb reqUsers options.Find (by decide)
    (Or.inl ⟨by decide, rfl⟩)
  have hname : reqUsers.Query.Get "name" = "users" := by decide
  rw [hname] at hval
  have hcount : midScanDb.CountDocuments "users" [] = .ok 3 := by rfl
  rw [hcount] at hval
  simp only at hval
  rw [hfind] at hval
  simp only [Reply.cursor] at hval
  rw [collectIDs_cons] at hval
  have hid : RawValue.ObjectIDOK
      (RawDoc.Lookup [("_id", RawValue.objectID oidA), ("n", RawValue.other 0x10)] "_id") =
        some oidA := by decide
  rw [hid] at hval
  simp only [collectIDs_nil] at hval
  rw [hval]
  rfl

/-- C8: on an unchanged store that answers, any two successful handleCollection calls for the
same collection name return the same DocumentCount, whatever their skip parameters, and it is
the total number of documents in the collection: both calls issue CountDocuments on the
collection with the empty filter, and the skip offset only enters the options of the find. -/
theorem documentCount_independent_of_skip (st : StoreState) (req1 req2 : Request)
    (d1 d2 : CollectionData)
    (hsame : req1.Query.Get "name" = req2.Query.Get "name")
    (h1 : (handleCollection st.serve req1).response = .rendered StatusOK d1)
    (h2 : (handleCollection st.serve req2).response = .rendered StatusOK d2) :
    d1.DocumentCount = ((st.documents (req1.Query.Get "name")).length : Int) ∧
    d2.DocumentCount = d1.DocumentCount ∧
    ∃ opts1 opts2,
      (handleCollection st.serve req1).calls =
        [.CountDocuments (req1.Query.Get "name") [],
         .Find (req1.Query.Get "name") [] opts1] ∧
      (handleCollection st.serve req2).calls =
        [.CountDocuments (req1.Query.Get "name") [],
         .Find (req1.Query.Get "name") [] opts2] := by
  obtain ⟨_, _, _, _, hc1, opts1, _, _, _, _, hcalls1⟩ :=
    handleCollection_rendered st.serve req1 StatusOK d1 h1
  obtain ⟨_, _, _, _, hc2, opts2, _, _, _, _, hcalls2⟩ :=
    handleCollection_rendered st.serve req2 StatusOK d2 h2
  rw [serve_count] at hc1 hc2
  injection hc1 with hc1
  injection hc2 with hc2
  refine ⟨hc1.symm, ?_, opts1, opts2, hcalls1, ?_⟩
  · rw [← hc1, ← hc2, hsame]
  · rw [hsame]
    exact hcalls2

/-- Witness for C8: on the three-document collection `users`, the call without skip and the
call with `skip=2` both succeed, and both return DocumentCount 3, the size of the
collection. -/
theorem documentCount_independent_of_skip_witness :
    (handleCollection usersStore.serve reqUsers).response = .rendered StatusOK usersPage ∧
    (handleCollection usersStore.serve (reqUsersSkip "2")).response =
      .rendered StatusOK usersPageSkip2 ∧
    usersPage.DocumentCount = ((usersStore.documents "users").length : Int) ∧
    usersPageSkip2.DocumentCount = usersPage.DocumentCount :=
  ⟨usersStore_unset, usersStore_skip2,
   (documentCount_independent_of_skip usersStore reqUsers (reqUsersSkip "2") usersPage
      usersPageSkip2 (by decide) usersStore_unset usersStore_skip2).1,
   (documentCount_independent_of_skip usersStore reqUsers (reqUsersSkip "2") usersPage
      usersPageSkip2 (by decide) usersStore_unset usersStore_skip2).2.1⟩

/-- C9: on every store that answers and for every non-empty collection name, handleCollection
with the skip parameter absent or empty gives the same response (the same page with the same
DatabaseName, CollectionName, DocumentCount and IDs, or the same error) as with a skip
parameter that reads as 0, although the find is issued with the skip option unset in the
first case and set to 0 in the second. -/
theorem handleCollection_skip_omitted_eq_zero (st : StoreState) (reqNone req0 : Request)
    (hname : reqNone.Query.Get "name" ≠ "")
    (hsame : req0.Query.Get "name" = reqNone.Query.Get "name")
    (hnone : reqNone.Query.Get "skip" = "")
    (hzero : Atoi (req0.Query.Get "skip") = .ok 0) :
    (handleCollection st.serve reqNone).response = (handleCollection st.serve req0).response ∧
    (handleCollection st.serve reqNone).calls =
      [.CountDocuments (reqNone.Query.Get "name") [],
       .Find (reqNone.Query.Get "name") [] { Skip := none }] ∧
    (handleCollection st.serve req0).calls =
      [.CountDocuments (reqNone.Query.Get "name") [],
       .Find (reqNone.Query.Get "name") [] { Skip := some 0 }] := by
  have hname0 : req0.Query.Get "name" ≠ "" := by rw [hsame]; exact hname
  have hvN := handleCollection_validated st.serve reqNone options.Find hname
    (Or.inl ⟨hnone, rfl⟩)
  have hv0 := handleCollection_validated st.serve req0 { Skip := some ((0 : Nat) : Int) } hname0
    (Or.inr ⟨0, hzero, le_refl _, rfl⟩)
  rw [serve_count, serve_find_skip] at hv0
  rw [serve_count, serve_find_unset] at hvN
  simp only [List.drop_zero] at hv0
  rw [hsame] at hv0
  rw [hvN, hv0]
  dsimp only
  generalize collectIDs _ _ = r
  cases r with
  | error e => exact ⟨rfl, rfl, rfl⟩
  | ok ids => exact ⟨rfl, rfl, rfl⟩

/-- Witness for C9: `/collection?name=users` and `/collection?name=users&skip=0` on the
three-document store. -/
theorem handleCollection_skip_omitted_eq_zero_witness :
    reqUsers.Query.Get "skip" = "" ∧ Atoi ((reqUsersSkip "0").Query.Get "skip") = .ok 0 ∧
    (handleCollection usersStore.serve reqUsers).response =
      (handleCollection usersStore.serve (reqUsersSkip "0")).response ∧
    (handleCollection usersStore.serve reqUsers).calls =
      [.CountDocuments "users" [], .Find "users" [] { Skip := none }] ∧
    (handleCollection usersStore.serve (reqUsersSkip "0")).calls =
      [.CountDocuments "users" [], .Find "users" [] { Skip := some 0 }] :=
  ⟨by decide, by rfl,
   handleCollection_skip_omitted_eq_zero usersStore reqUsers (reqUsersSkip "0")
     (by decide) (by decide) (by decide) (by rfl)⟩

/-- C10: for a request to handleDocument with a non-empty collection and a well-formed 24-hex
id, (1) on a store that answers, when no record of the collection carries that identifier
the response is 500 "failed to decode document"; (2) the same status and message answer
any other failure of the store lookup or of decoding; (3) a page is rendered only with
status 200 and only when the lookup returned a record that was decoded and serialized, and
then the payload's ID is the parsed identifier, CollectionName is the requested collection
and Document is the serialized text. -/
theorem handleDocument_not_found_and_success (MarshalIndent : RawDoc → Except String String)
    (req : Request) :
    (∀ (st : StoreState) (id : ObjectID), req.Query.Get "collection" ≠ "" →
      IsObjectIDHex (req.Query.Get "id") → ObjectIDFromHex (req.Query.Get "id") = some id →
      (∀ d ∈ st.documents (req.Query.Get "collection"), d.Lookup "_id" ≠ .objectID id) →
      handleDocument st.serve MarshalIndent req =
        ⟨.httpError "failed to decode document" StatusInternalServerError,
          [.FindOne (req.Query.Get "collection") [("_id", id)]]⟩) ∧
    (∀ (db : Database) (id : ObjectID) (e : StoreErr), req.Query.Get "collection" ≠ "" →
      ObjectIDFromHex (req.Query.Get "id") = some id →
      db.FindOne (req.Query.Get "collection") [("_id", id)] = .error e →
      handleDocument db MarshalIndent req =
        ⟨.httpError "failed to decode document" StatusInternalServerError,
          [.FindOne (req.Query.Get "collection") [("_id", id)]]⟩) ∧
    (∀ (db : Database) (code : Nat) (data : DocumentData),
      (handleDocument db MarshalIndent req).response = .rendered code data →
      code = StatusOK ∧ req.Query.Get "collection" ≠ "" ∧
      ∃ id document, ObjectIDFromHex (req.Query.Get "id") = some id ∧
        db.FindOne (req.Query.Get "collection") [("_id", id)] = .ok document ∧
        MarshalIndent document = .ok data.Document ∧
        data.ID = id ∧ data.CollectionName = req.Query.Get "collection" ∧
        data.DatabaseName = db.Name) := by
  refine ⟨?_, ?_, ?_⟩
  · intro st id hc _ hp hnone
    exact handleDocument_on_error st.serve MarshalIndent req id .noDocuments hc hp
      (serve_findOne_none st _ id hnone)
  · intro db id e hc hp hf
    exact handleDocument_on_error db MarshalIndent req id e hc hp hf
  · intro db code data h
    by_cases hc : req.Query.Get "collection" = ""
    · simp [handleDocument, hc] at h
    · by_cases hid : req.Query.Get "id" = ""
      · simp [handleDocument, hc, hid] at h
      · cases hp : ObjectIDFromHex (req.Query.Get "id") with
        | none => simp [handleDocument, hc, hid, hp] at h
        | some id =>
          cases hf : db.FindOne (req.Query.Get "collection") [("_id", id)] with
          | error e => simp [handleDocument, hc, hid, hp, hf] at h
          | ok document =>
            cases hm : MarshalIndent document with
            | error e => simp [handleDocument, hc, hid, hp, hf, hm] at h
            | ok text =>
              simp [handleDocument, hc, hid, hp, hf, hm] at h
              obtain ⟨hcode, hdata⟩ := h
              subst hdata
              exact ⟨hcode.symm, hc, id, document, rfl, hf, hm, rfl, rfl, rfl⟩

/-- Witness for C10: on the three-document store, the id of 24 times `f` matches no record
and is answered 500 "failed to decode document", as is the same request on a store past
its deadline; the id of the first document is answered 200 with that identifier and
collection in the payload. -/
theorem handleDocument_not_found_and_success_witness :
    IsObjectIDHex ((reqDocument "users" "ffffffffffffffffffffffff").Query.Get "id") ∧
    handleDocument usersStore.serve keysText (reqDocument "users" "ffffffffffffffffffffffff") =
      ⟨.httpError "failed to decode document" StatusInternalServerError,
        [.FindOne "users"
          [("_id", [255, 255, 255, 255, 255, 255, 255, 255, 255, 255, 255, 255])]]⟩ ∧
    handleDocument expiredDb keysText (reqDocument "users" "ffffffffffffffffffffffff") =
      ⟨.httpError "failed to decode document" StatusInternalServerError,
        [.FindOne "users"
          [("_id", [255, 255, 255, 255, 255, 255, 255, 255, 255, 255, 255, 255])]]⟩ ∧
    (handleDocument usersStore.serve keysText
        (reqDocument "users" "010101010101010101010101")).response =
      .rendered StatusOK
        { DatabaseName := "example", CollectionName := "users", ID := oidA,
          Document := "_id,n" } ∧
    (StatusOK = StatusOK ∧
      (reqDocument "users" "010101010101010101010101").Query.Get "collection" ≠ "") := by
  have hhex : IsObjectIDHex ((reqDocument "users" "ffffffffffffffffffffffff").Query.Get "id") :=
    ⟨by decide, by decide⟩
  have hok : (handleDocument usersStore.serve keysText
        (reqDocument "users" "010101010101010101010101")).response =
      .rendered StatusOK
        { DatabaseName := "example", CollectionName := "users", ID := oidA,
          Document := "_id,n" } := by decide
  refine ⟨hhex, ?_, ?_, hok, ?_⟩
  · exact (handleDocument_not_found_and_success keysText
      (reqDocument "users" "ffffffffffffffffffffffff")).1 usersStore _ (by decide) hhex
      (by rfl) (by decide)
  · exact (handleDocument_not_found_and_success keysText
      (reqDocument "users" "ffffffffffffffffffffffff")).2.1 expiredDb _ .deadlineExceeded
      (by decide) (by rfl) rfl
  · have h := (handleDocument_not_found_and_success keysText
      (reqDocument "users" "010101010101010101010101")).2.2 usersStore.serve StatusOK _ hok
    exact ⟨h.1, h.2.1⟩

end MongoExample
